import Mathlib

/-!
Verification of the ChromaDB client wrapper (`app/client.py`) and CLI script
(`local_client.py`).

The repository is a thin wrapper around a remote vector-database service:
a bounded retry loop around connection and collection access, identifier
generation for added documents, query-text normalization, and a CLI driver.
We embed the control flow of these functions shallowly: external calls
(heartbeat, get-or-create, add, query) are oracles telling whether each
attempt succeeds, loops become fuel-indexed recursion matching the Python
loop guards, and the observable actions (attempted calls, sleeps,
reconnections) are recorded in an explicit trace.
-/

namespace Chroma

/-- Observable events of `ChromaDBClient._connect`:
`attempt k` is the k-th (0-based) construction-plus-heartbeat try,
`sleep d` is `time.sleep(retry_delay)`. -/
inductive CEvent where
  | attempt (k : Nat)
  | sleep (d : Nat)
  deriving DecidableEq, Repr

/-- How `_connect` terminates: `connected` is the `return` after a successful
heartbeat, `raisedError` is the `raise ConnectionError(...)`, and
`fellThrough` is falling off the `while` loop (returning `None` with the
client handle untouched), which happens exactly when the guard
`attempts < max_retries` fails. -/
inductive ConnectOutcome where
  | connected (k : Nat)
  | raisedError
  | fellThrough
  deriving DecidableEq, Repr

/-- Body of `_connect`'s `while attempts < self.max_retries` loop, from
`src/app/client.py` lines 41-59.  `succ k` says whether the k-th heartbeat
attempt succeeds.  `max_retries` is an `int` in Python, hence `Int` here;
`attempts` starts at 0 and only increments, hence `Nat`. -/
def connectAux (succ : Nat → Bool) (d : Nat) (m : Int) (attempts : Nat) :
    ConnectOutcome × List CEvent :=
  if _h : (attempts : Int) < m then
    if succ attempts then
      (.connected attempts, [.attempt attempts])
    else if (attempts : Int) + 1 ≥ m then
      (.raisedError, [.attempt attempts])
    else
      let r := connectAux succ d m (attempts + 1)
      (r.1, .attempt attempts :: .sleep d :: r.2)
  else
    (.fellThrough, [])
termination_by (m - attempts).toNat
decreasing_by
  simp_wf
  omega

/-- `ChromaDBClient._connect`: the loop entered with `attempts = 0`. -/
def connect (succ : Nat → Bool) (d : Nat) (m : Int) :
    ConnectOutcome × List CEvent :=
  connectAux succ d m 0

/-- The trace `_connect` produces when attempts `a, a+1, ...` all fail and
`n` loop iterations remain: an attempt, then (except after the last
attempt) a sleep, alternating. -/
def failTrace (d : Nat) : Nat → Nat → List CEvent
  | _, 0 => []
  | a, 1 => [.attempt a]
  | a, n + 2 => .attempt a :: .sleep d :: failTrace d (a + 1) (n + 1)

/-- Number of `attempt` events in a trace. -/
def countAttempts (tr : List CEvent) : Nat :=
  (tr.filter fun e => match e with | .attempt _ => true | _ => false).length

/-- Number of `sleep` events in a trace. -/
def countSleeps (tr : List CEvent) : Nat :=
  (tr.filter fun e => match e with | .sleep _ => true | _ => false).length

/-- Observable events of `ChromaDBClient.get_or_create_collection`:
`tryGOC k` is the k-th (0-based) call to the remote
`get_or_create_collection`, `gsleep d` is `time.sleep(retry_delay)`, and
`connectCall j` marks the j-th nested call to `self._connect()` (taken on
the `attempts % 2 == 0` branch). -/
inductive GEvent where
  | tryGOC (k : Nat)
  | gsleep (d : Nat)
  | connectCall (j : Nat)
  deriving DecidableEq, Repr

/-- How `get_or_create_collection` terminates: `returned` is the
`return collection` after a successful remote call, `raised` is the bare
`raise` after `max_retries` failures, `connectRaised` is a
`ConnectionError` escaping from the nested `self._connect()` call (which
sits outside the `try` block, so it propagates), and `fellThrough` is
falling off the `while` loop, returning `None`. -/
inductive GocOutcome where
  | returned (k : Nat)
  | raised
  | connectRaised
  | fellThrough
  deriving DecidableEq, Repr

/-- Body of `get_or_create_collection`'s `while attempts < self.max_retries`
loop, from `src/app/client.py` lines 63-79.  `gsucc k` says whether the
k-th remote `get_or_create_collection` call succeeds; `conn j` is the
outcome of the j-th nested `self._connect()` call (`j` counts reconnects
already made).  After a failure the code increments `attempts`, re-raises
when `attempts >= max_retries`, otherwise sleeps and, when
`attempts % 2 == 0`, calls `self._connect()`. -/
def gocAux (gsucc : Nat → Bool) (conn : Nat → ConnectOutcome) (d : Nat)
    (m : Int) (attempts reconnects : Nat) : GocOutcome × List GEvent :=
  if _h : (attempts : Int) < m then
    if gsucc attempts then
      (.returned attempts, [.tryGOC attempts])
    else if (attempts : Int) + 1 ≥ m then
      (.raised, [.tryGOC attempts])
    else if (attempts + 1) % 2 == 0 then
      match conn reconnects with
      | .raisedError =>
          (.connectRaised,
           [.tryGOC attempts, .gsleep d, .connectCall reconnects])
      | _ =>
          let r := gocAux gsucc conn d m (attempts + 1) (reconnects + 1)
          (r.1, .tryGOC attempts :: .gsleep d :: .connectCall reconnects :: r.2)
    else
      let r := gocAux gsucc conn d m (attempts + 1) reconnects
      (r.1, .tryGOC attempts :: .gsleep d :: r.2)
  else
    (.fellThrough, [])
termination_by (m - attempts).toNat
decreasing_by
  all_goals simp_wf
  all_goals omega

/-- `ChromaDBClient.get_or_create_collection`: the loop entered with
`attempts = 0` and no reconnects made yet. -/
def getOrCreateCollection (gsucc : Nat → Bool) (conn : Nat → ConnectOutcome)
    (d : Nat) (m : Int) : GocOutcome × List GEvent :=
  gocAux gsucc conn d m 0 0

/-- The trace `get_or_create_collection` produces when attempts
`a, a+1, ...` all fail, `r` reconnects have been made, and `n` loop
iterations remain: each non-final failed attempt is followed by a sleep
and, exactly when the failed-attempt count `a+1` is even, a reconnect. -/
def gocFailTrace (d : Nat) : Nat → Nat → Nat → List GEvent
  | _, _, 0 => []
  | a, _, 1 => [.tryGOC a]
  | a, r, n + 2 =>
    if (a + 1) % 2 == 0 then
      .tryGOC a :: .gsleep d :: .connectCall r :: gocFailTrace d (a + 1) (r + 1) (n + 1)
    else
      .tryGOC a :: .gsleep d :: gocFailTrace d (a + 1) r (n + 1)

/-- Number of `tryGOC` events in a trace. -/
def countTries (tr : List GEvent) : Nat :=
  (tr.filter fun e => match e with | .tryGOC _ => true | _ => false).length

/-- Number of `gsleep` events in a trace. -/
def countGSleeps (tr : List GEvent) : Nat :=
  (tr.filter fun e => match e with | .gsleep _ => true | _ => false).length

/-- Number of `connectCall` events in a trace. -/
def countConnectCalls (tr : List GEvent) : Nat :=
  (tr.filter fun e => match e with | .connectCall _ => true | _ => false).length

/-- The id generation of `add_documents` when `ids is None`
(`src/app/client.py` line 95): `[str(uuid.uuid4()) for _ in
range(len(documents))]`.  The `uuid.uuid4` source is abstracted as a
supply `uuid : Nat → String` giving the string drawn on the k-th call. -/
def generatedIds (uuid : Nat → String) (documents : List String) : List String :=
  (List.range documents.length).map uuid

/-- The ids `collection.add` receives in `add_documents`
(`src/app/client.py` lines 93-101): the caller's `ids` when given,
otherwise one freshly generated id per document. -/
def addDocumentsIds (uuid : Nat → String) (documents : List String)
    (ids : Option (List String)) : List String :=
  match ids with
  | none => generatedIds uuid documents
  | some l => l

/-- Result of `ChromaDBClient.add_documents` (`src/app/client.py` lines
81-106) as seen by its caller.  `goc` is the result of the initial
`self.get_or_create_collection(collection_name)` call; `addCall` is the
remote `collection.add`, given the ids it is passed.  Failures of either
are logged and re-raised (`raise` on line 106), so they surface as
`.error`; on success the ids that were stored are reported. -/
def addDocuments (goc : Except String Unit)
    (addCall : List String → Except String Unit) (uuid : Nat → String)
    (documents : List String) (ids : Option (List String)) :
    Except String (List String) :=
  match goc with
  | .error e => .error e
  | .ok _ =>
    let theIds := addDocumentsIds uuid documents ids
    match addCall theIds with
    | .error e => .error e
    | .ok _ => .ok theIds

/-- The `query_texts` argument of `query_collection` and of
`collection.query`: Python type `List[str] | str`. -/
inductive QueryTexts where
  | str (s : String)
  | list (l : List String)
  deriving DecidableEq, Repr

/-- The value `query_collection` passes as `query_texts` to
`collection.query` (`src/app/client.py` lines 120-124): a single string is
first wrapped into a one-element list, a list is passed unchanged. -/
def queryCollectionDispatched (q : QueryTexts) : List String :=
  match q with
  | .str s => [s]
  | .list l => l

/-- The value `run_basic_query` passes as `query_texts` to
`collection.query` (`src/local_client.py` lines 73-76): the `query_text`
string argument, unmodified. -/
def runBasicQueryDispatched (queryText : String) : QueryTexts :=
  .str queryText

/-- The value `run_filtered_query` passes as `query_texts` to
`collection.query` (`src/local_client.py` lines 107-111): the `query_text`
string argument, unmodified. -/
def runFilteredQueryDispatched (queryText : String) : QueryTexts :=
  .str queryText

/-- Result of `ChromaDBClient.query_collection` (`src/app/client.py` lines
108-133) as seen by its caller.  `goc` is the result of the initial
`self.get_or_create_collection(collection_name)`; `queryCall` is the
remote `collection.query`, given the normalized list of query texts.
A failure is logged and re-raised (`raise` on line 133). -/
def queryCollection (goc : Except String Unit)
    (queryCall : List String → Except String (List (List String)))
    (queryTexts : QueryTexts) : Except String (List (List String)) :=
  match goc with
  | .error e => .error e
  | .ok _ => queryCall (queryCollectionDispatched queryTexts)

end Chroma

namespace LocalClient

/-- Return value of `get_collection_info` (`src/local_client.py` lines
44-66): a dict `{"name": ..., "count": ...}` on success, the empty dict
`{}` when any remote call in the `try` block raised. -/
inductive InfoResult where
  | info (name : String) (count : Nat)
  | empty
  deriving DecidableEq, Repr

/-- `get_collection_info`: the whole body sits in a `try` block whose
`except` prints the error and returns `{}` — no exception escapes.
`remote` is the combined outcome of the remote calls
(`get_collection`/`count`/`peek`), yielding the document count on
success. -/
def getCollectionInfo (remote : Except String Nat) (name : String) :
    InfoResult :=
  match remote with
  | .ok count => .info name count
  | .error _ => .empty

/-- A stored document of the modelled service: its text together with its
metadata mapping (list of key–value pairs). -/
structure StoredDoc where
  text : String
  metadata : List (String × String)
  deriving DecidableEq, Repr

/-- Modelled from the spec: the remote service's metadata-filtered query
(the `where` clause), absent from `src/` because search lives in the
external vector-database service.  Per the spec's data model, a query
returns a ranked list of matching documents, at most `n_results` long and
restricted to documents whose metadata satisfies the `where` predicate;
ranking by embedding distance is abstracted as the stored order. -/
def serviceFilteredQuery (docs : List StoredDoc) (filterKey filterVal : String)
    (n : Nat) : List StoredDoc :=
  (docs.filter fun doc => doc.metadata.contains (filterKey, filterVal)).take n

/-- Outcome of `run_filtered_query` (`src/local_client.py` lines 94-130)
as observed by the caller: either the "No matching documents found" branch
(line 117), a printed non-empty result list, or the `except` branch that
prints the error and returns `None`.  Every path returns normally; the
function cannot raise. -/
inductive FilteredQueryOutcome where
  | noMatches
  | printedResults (docs : List StoredDoc)
  | caughtError
  deriving DecidableEq, Repr

/-- `run_filtered_query`: `remoteOk` says whether the remote
`get_collection`/`query` calls succeed; on success the service's filtered
result decides between the empty-result branch and the printing loop. -/
def runFilteredQuery (remoteOk : Bool) (stored : List StoredDoc)
    (_queryText filterKey filterVal : String) (n : Nat) :
    FilteredQueryOutcome :=
  if remoteOk then
    let results := serviceFilteredQuery stored filterKey filterVal n
    if results.isEmpty then .noMatches else .printedResults results
  else .caughtError

/-- The environment `local_client.py`'s `main` runs against: whether the
initial connection succeeds, the names `list_collections` returns, and
whether `get_collection_info` succeeds for a given name. -/
structure CliWorld where
  connectOk : Bool
  collections : List String
  infoOk : String → Bool

/-- How `main` (`src/local_client.py` lines 133-163) ends: `exitNonzero`
is a `sys.exit(1)` (from `connect_to_chroma` on connection failure, the
empty-collections check, or the empty-info check), `completed name` is
normal completion after querying collection `name`. -/
inductive CliResult where
  | exitNonzero
  | completed (queried : String)
  deriving DecidableEq, Repr

/-- `main` of `src/local_client.py`: connect (exit 1 on failure), list
collections (exit 1 when none), pick `args.collection` if it is listed and
otherwise fall back to `collections[0]` (line 149), get its info (exit 1
when that comes back empty), then run the query against the chosen
collection. -/
def cliMain (w : CliWorld) (argCollection : String) : CliResult :=
  if !w.connectOk then .exitNonzero
  else if w.collections.isEmpty then .exitNonzero
  else
    let name :=
      if w.collections.contains argCollection then argCollection
      else w.collections.headD ""
    if !w.infoOk name then .exitNonzero
    else .completed name

end LocalClient

namespace Service

/-- Modelled from the spec: the remote service's collection store, absent
from `src/` because storage lives in the external vector-database service.
Per the spec's data model a collection is a named set of documents,
identity is the name string, and collections are created via get-or-create
semantics. -/
def Store := List (String × List String)

/-- Modelled from the spec: get-or-create semantics.  Looking up an
existing name returns its documents and leaves the store unchanged;
a missing name is created empty. -/
def getOrCreateService (st : Store) (name : String) : Store × List String :=
  match st.lookup name with
  | some docs => (st, docs)
  | none => ((name, []) :: st, [])

/-- Modelled from the spec: adding documents appends them to the named
collection's document set. -/
def storeAdd (st : Store) (name : String) (docs : List String) : Store :=
  st.map fun entry =>
    if entry.1 = name then (entry.1, entry.2 ++ docs) else entry

/-- `ChromaDBClient.add_documents` against the modelled service store: it
first performs get-or-create on the named collection (`src/app/client.py`
line 90), then stores the documents into it. -/
def addDocumentsState (st : Store) (name : String) (docs : List String) :
    Store :=
  let created := (getOrCreateService st name).1
  storeAdd created name docs

/-- Modelled from the spec: an unfiltered query against one collection
returns a ranked list of its documents, at most `n` long; ranking by
embedding distance is abstracted as the stored order. -/
def serviceQuery (docs : List String) (n : Nat) : List String :=
  docs.take n

/-- `ChromaDBClient.query_collection` against the modelled service store:
it first performs get-or-create on the named collection
(`src/app/client.py` line 117), then runs each normalized query text
against the resulting collection, returning the possibly extended store
and the per-query result lists. -/
def queryCollectionState (st : Store) (name : String)
    (q : Chroma.QueryTexts) (n : Nat) : Store × List (List String) :=
  let (st2, docs) := getOrCreateService st name
  (st2, (Chroma.queryCollectionDispatched q).map fun _ => serviceQuery docs n)

end Service

namespace Chroma

/-- When every attempted heartbeat fails, the `_connect` loop entered at
`attempts = a < m` raises a `ConnectionError` and its trace is the
alternating attempt/sleep pattern with `(m - a)` attempts. -/
theorem connectAux_allFail (succ : Nat → Bool) (d : Nat) (m : Int)
    (hfail : ∀ k : Nat, (k : Int) < m → succ k = false) :
    ∀ (n : Nat) (a : Nat), (a : Int) < m → (m - a).toNat = n →
      connectAux succ d m a = (.raisedError, failTrace d a n) := by
  intro n
  induction n with
  | zero =>
    intro a ha h0
    omega
  | succ n ih =>
    intro a ha hn
    rw [connectAux, dif_pos ha, hfail a ha]
    simp only [Bool.false_eq_true, if_false]
    by_cases hlast : (a : Int) + 1 ≥ m
    · rw [if_pos hlast]
      have hn0 : n = 0 := by omega
      subst hn0
      rfl
    · rw [if_neg hlast]
      obtain ⟨n', rfl⟩ : ∃ n', n = n' + 1 := ⟨n - 1, by omega⟩
      rw [ih (a + 1) (by push_cast; omega) (by push_cast; omega)]
      rfl

/-- When the first success comes at attempt `k0 < m`, the `_connect` loop
returns right after that attempt: the trace is the alternating pattern of
the `k0` failures followed by the successful attempt, with nothing after
it. -/
theorem connectAux_firstSuccess (succ : Nat → Bool) (d : Nat) (m : Int)
    (k0 : Nat) (hk0 : succ k0 = true)
    (hbefore : ∀ k, k < k0 → succ k = false) (hm : (k0 : Int) < m) :
    ∀ (n : Nat) (a : Nat), k0 = a + n →
      connectAux succ d m a = (.connected k0, failTrace d a (n + 1)) := by
  intro n
  induction n with
  | zero =>
    intro a ha
    have ha' : a = k0 := by omega
    subst ha'
    rw [connectAux, dif_pos hm, hk0]
    rfl
  | succ n ih =>
    intro a ha
    have hfa : succ a = false := hbefore a (by omega)
    rw [connectAux, dif_pos (by omega), hfa]
    simp only [Bool.false_eq_true, if_false]
    rw [if_neg (by omega)]
    rw [ih (a + 1) (by omega)]
    rfl

/-- The failure trace holds one `attempt` event per loop iteration. -/
theorem countAttempts_failTrace (d : Nat) :
    ∀ n a, countAttempts (failTrace d a n) = n := by
  intro n
  induction n using Nat.strong_induction_on with
  | _ n ih =>
    intro a
    match n with
    | 0 => rfl
    | 1 => rfl
    | n + 2 =>
      have := ih (n + 1) (by omega) (a + 1)
      simp only [failTrace, countAttempts, List.filter_cons] at *
      simp_all

/-- The failure trace holds one `sleep` event between consecutive
attempts, hence one fewer than the number of attempts. -/
theorem countSleeps_failTrace (d : Nat) :
    ∀ n a, countSleeps (failTrace d a n) = n - 1 := by
  intro n
  induction n using Nat.strong_induction_on with
  | _ n ih =>
    intro a
    match n with
    | 0 => rfl
    | 1 => rfl
    | n + 2 =>
      have := ih (n + 1) (by omega) (a + 1)
      simp only [failTrace, countSleeps, List.filter_cons] at *
      simp_all

/-- C1: for every `max_retries ≥ 1`, when every heartbeat attempt fails,
`_connect` makes exactly `max_retries` attempts, sleeps `retry_delay`
between consecutive failed attempts and not after the last one, and raises
a `ConnectionError` only after the last attempt; when the first attempt
succeeds it returns immediately after that single attempt. -/
theorem connect_retry_policy (m d : Nat) (succ : Nat → Bool) (hm : 1 ≤ m) :
    ((∀ k, k < m → succ k = false) →
      connect succ d (m : Int) = (.raisedError, failTrace d 0 m) ∧
      countAttempts (connect succ d (m : Int)).2 = m ∧
      countSleeps (connect succ d (m : Int)).2 = m - 1) ∧
    (∀ k0, k0 < m → succ k0 = true → (∀ k, k < k0 → succ k = false) →
      connect succ d (m : Int) = (.connected k0, failTrace d 0 (k0 + 1)) ∧
      countAttempts (connect succ d (m : Int)).2 = k0 + 1 ∧
      countSleeps (connect succ d (m : Int)).2 = k0) := by
  constructor
  · intro hfail
    have hfail' : ∀ k : Nat, (k : Int) < (m : Int) → succ k = false := by
      intro k hk
      exact hfail k (by exact_mod_cast hk)
    have key := connectAux_allFail succ d (m : Int) hfail' m 0
      (by exact_mod_cast hm) (by omega)
    refine ⟨key, ?_, ?_⟩
    · rw [connect, key]
      exact countAttempts_failTrace d m 0
    · rw [connect, key]
      exact countSleeps_failTrace d m 0
  · intro k0 hk0m hsucc hbefore
    have key := connectAux_firstSuccess succ d (m : Int) k0 hsucc hbefore
      (by exact_mod_cast hk0m) k0 0 (by omega)
    refine ⟨key, ?_, ?_⟩
    · rw [connect, key]
      exact countAttempts_failTrace d (k0 + 1) 0
    · rw [connect, key]
      have := countSleeps_failTrace d (k0 + 1) 0
      simpa using this

/-- Witness for `connect_retry_policy` at `m = 3`, `d = 2`, with an
always-failing oracle for the first part and an oracle whose first success
is attempt 1 for the second. -/
theorem connect_retry_policy_witness :
    (connect (fun _ => false) 2 (3 : Int) =
      (.raisedError,
       [.attempt 0, .sleep 2, .attempt 1, .sleep 2, .attempt 2]) ∧
     countAttempts (connect (fun _ => false) 2 (3 : Int)).2 = 3 ∧
     countSleeps (connect (fun _ => false) 2 (3 : Int)).2 = 2) ∧
    (connect (fun k => k == 1) 2 (3 : Int) =
      (.connected 1, [.attempt 0, .sleep 2, .attempt 1]) ∧
     countAttempts (connect (fun k => k == 1) 2 (3 : Int)).2 = 2 ∧
     countSleeps (connect (fun k => k == 1) 2 (3 : Int)).2 = 1) := by
  constructor
  · have h := (connect_retry_policy 3 2 (fun _ => false) (by decide)).1
      (fun k _ => rfl)
    exact h
  · have h := (connect_retry_policy 3 2 (fun k => k == 1) (by decide)).2 1
      (by decide) (by decide)
      (fun k hk => by
        have hk0 : k = 0 := by omega
        subst hk0
        rfl)
    exact h

/-- When every remote `get_or_create_collection` call fails and no nested
reconnect raises, the loop entered at `attempts = a < m` re-raises and its
trace is the failure pattern with `(m - a)` tries. -/
theorem gocAux_allFail (gsucc : Nat → Bool) (conn : Nat → ConnectOutcome)
    (d : Nat) (m : Int)
    (hfail : ∀ k : Nat, (k : Int) < m → gsucc k = false)
    (hconn : ∀ j, conn j ≠ .raisedError) :
    ∀ (n : Nat) (a r : Nat), (a : Int) < m → (m - a).toNat = n →
      gocAux gsucc conn d m a r = (.raised, gocFailTrace d a r n) := by
  intro n
  induction n with
  | zero =>
    intro a r ha h0
    omega
  | succ n ih =>
    intro a r ha hn
    rw [gocAux, dif_pos ha, hfail a ha]
    simp only [Bool.false_eq_true, if_false]
    by_cases hlast : (a : Int) + 1 ≥ m
    · rw [if_pos hlast]
      have hn0 : n = 0 := by omega
      subst hn0
      rfl
    · rw [if_neg hlast]
      obtain ⟨n', rfl⟩ : ∃ n', n = n' + 1 := ⟨n - 1, by omega⟩
      by_cases hpar : (a + 1) % 2 = 0
      · rw [if_pos (by simpa using hpar)]
        rcases hc : conn r with k | _ | _
        · rw [ih (a + 1) (r + 1) (by push_cast; omega) (by push_cast; omega)]
          simp [gocFailTrace, hpar]
        · exact absurd hc (hconn r)
        · rw [ih (a + 1) (r + 1) (by push_cast; omega) (by push_cast; omega)]
          simp [gocFailTrace, hpar]
      · rw [if_neg (by simpa using hpar)]
        rw [ih (a + 1) r (by push_cast; omega) (by push_cast; omega)]
        simp [gocFailTrace, hpar]

/-- The failure trace of `get_or_create_collection` holds one `tryGOC`
event per loop iteration. -/
theorem countTries_gocFailTrace (d : Nat) :
    ∀ n a r, countTries (gocFailTrace d a r n) = n := by
  intro n
  induction n using Nat.strong_induction_on with
  | _ n ih =>
    intro a r
    match n with
    | 0 => rfl
    | 1 => rfl
    | n + 2 =>
      by_cases hpar : (a + 1) % 2 = 0
      · have := ih (n + 1) (by omega) (a + 1) (r + 1)
        simp only [gocFailTrace, countTries, List.filter_cons] at *
        simp_all
      · have := ih (n + 1) (by omega) (a + 1) r
        simp only [gocFailTrace, countTries, List.filter_cons] at *
        simp_all

/-- The failure trace of `get_or_create_collection` holds one sleep
between consecutive tries, hence one fewer than the number of tries. -/
theorem countGSleeps_gocFailTrace (d : Nat) :
    ∀ n a r, countGSleeps (gocFailTrace d a r n) = n - 1 := by
  intro n
  induction n using Nat.strong_induction_on with
  | _ n ih =>
    intro a r
    match n with
    | 0 => rfl
    | 1 => rfl
    | n + 2 =>
      by_cases hpar : (a + 1) % 2 = 0
      · have := ih (n + 1) (by omega) (a + 1) (r + 1)
        simp only [gocFailTrace, countGSleeps, List.filter_cons] at *
        simp_all
      · have := ih (n + 1) (by omega) (a + 1) r
        simp only [gocFailTrace, countGSleeps, List.filter_cons] at *
        simp_all

/-- The failure trace of `get_or_create_collection` holds one reconnect
per even failed-attempt count strictly below the iteration budget. -/
theorem countConnectCalls_gocFailTrace (d : Nat) :
    ∀ n a r, 1 ≤ n →
      countConnectCalls (gocFailTrace d a r n) = (a + n - 1) / 2 - a / 2 := by
  intro n
  induction n using Nat.strong_induction_on with
  | _ n ih =>
    intro a r _hn
    match n with
    | 1 =>
      simp only [gocFailTrace, countConnectCalls, List.filter_cons]
      simp
    | n + 2 =>
      by_cases hpar : (a + 1) % 2 = 0
      · have := ih (n + 1) (by omega) (a + 1) (r + 1) (by omega)
        simp only [gocFailTrace, countConnectCalls, List.filter_cons] at *
        simp_all
        omega
      · have := ih (n + 1) (by omega) (a + 1) r (by omega)
        simp only [gocFailTrace, countConnectCalls, List.filter_cons] at *
        simp_all
        omega

/-- C2: for every `max_retries ≥ 1`, when every remote collection access
fails and nested reconnects do not raise, `get_or_create_collection` makes
exactly `max_retries` tries with `retry_delay` sleeps between consecutive
tries, calls `_connect` exactly after each failed non-final attempt whose
failed-attempt count is even (hence `(max_retries - 1) / 2` times in
total), and re-raises the last exception after the final failure. -/
theorem goc_retry_policy (m d : Nat) (gsucc : Nat → Bool)
    (conn : Nat → ConnectOutcome) (hm : 1 ≤ m)
    (hfail : ∀ k, k < m → gsucc k = false)
    (hconn : ∀ j, conn j ≠ .raisedError) :
    getOrCreateCollection gsucc conn d (m : Int) =
      (.raised, gocFailTrace d 0 0 m) ∧
    countTries (getOrCreateCollection gsucc conn d (m : Int)).2 = m ∧
    countGSleeps (getOrCreateCollection gsucc conn d (m : Int)).2 = m - 1 ∧
    countConnectCalls (getOrCreateCollection gsucc conn d (m : Int)).2 =
      (m - 1) / 2 := by
  have hfail' : ∀ k : Nat, (k : Int) < (m : Int) → gsucc k = false := by
    intro k hk
    exact hfail k (by exact_mod_cast hk)
  have key := gocAux_allFail gsucc conn d (m : Int) hfail' hconn m 0 0
    (by exact_mod_cast hm) (by omega)
  refine ⟨key, ?_, ?_, ?_⟩
  · rw [getOrCreateCollection, key]
    exact countTries_gocFailTrace d m 0 0
  · rw [getOrCreateCollection, key]
    exact countGSleeps_gocFailTrace d m 0 0
  · rw [getOrCreateCollection, key]
    have := countConnectCalls_gocFailTrace d m 0 0 hm
    simpa using this

/-- Witness for `goc_retry_policy` at `m = 5`, `d = 2`, with an
always-failing remote call and always-succeeding reconnects: five tries,
four sleeps, reconnects after the 2nd and 4th failures. -/
theorem goc_retry_policy_witness :
    getOrCreateCollection (fun _ => false) (fun _ => .connected 0) 2 (5 : Int) =
      (.raised,
       [.tryGOC 0, .gsleep 2,
        .tryGOC 1, .gsleep 2, .connectCall 0,
        .tryGOC 2, .gsleep 2,
        .tryGOC 3, .gsleep 2, .connectCall 1,
        .tryGOC 4]) ∧
    countTries (getOrCreateCollection (fun _ => false) (fun _ => .connected 0)
      2 (5 : Int)).2 = 5 ∧
    countGSleeps (getOrCreateCollection (fun _ => false) (fun _ => .connected 0)
      2 (5 : Int)).2 = 4 ∧
    countConnectCalls (getOrCreateCollection (fun _ => false)
      (fun _ => .connected 0) 2 (5 : Int)).2 = 2 := by
  have h := goc_retry_policy 5 2 (fun _ => false) (fun _ => .connected 0)
    (by decide) (fun k _ => rfl) (fun j => by simp)
  exact h

/-- The client handle after `_connect`'s events, starting from `init`
(`None` right after `__init__` sets `self.client = None`): each loop
iteration assigns `self.client = chromadb.HttpClient(...)` before the
heartbeat, so each `attempt k` event overwrites the handle. -/
def clientAfter (init : Option Nat) (tr : List CEvent) : Option Nat :=
  tr.foldl
    (fun c e => match e with | .attempt k => some k | .sleep _ => c) init

/-- C10: with `max_retries ≤ 0` the `while` guards of `_connect` and
`get_or_create_collection` fail at once, so both loops run zero
iterations: `_connect` returns normally with an empty trace (no service
contact, no exception) leaving the client handle `None`, and
`get_or_create_collection` falls off its loop returning `None` with an
empty trace. -/
theorem zero_retries_no_contact (succ gsucc : Nat → Bool)
    (conn : Nat → ConnectOutcome) (d : Nat) (m : Int) (hm : m ≤ 0) :
    connect succ d m = (.fellThrough, []) ∧
    clientAfter none (connect succ d m).2 = none ∧
    getOrCreateCollection gsucc conn d m = (.fellThrough, []) := by
  have h1 : connect succ d m = (.fellThrough, []) := by
    rw [connect, connectAux, dif_neg (by omega)]
  have h2 : getOrCreateCollection gsucc conn d m = (.fellThrough, []) := by
    rw [getOrCreateCollection, gocAux, dif_neg (by omega)]
  exact ⟨h1, by rw [h1]; rfl, h2⟩

/-- Witness for `zero_retries_no_contact` at `max_retries = -1` with
oracles that would succeed if ever consulted. -/
theorem zero_retries_no_contact_witness :
    connect (fun _ => true) 2 (-1 : Int) = (.fellThrough, []) ∧
    clientAfter none (connect (fun _ => true) 2 (-1 : Int)).2 = none ∧
    getOrCreateCollection (fun _ => true) (fun _ => .connected 0) 2 (-1 : Int) =
      (.fellThrough, []) :=
  zero_retries_no_contact (fun _ => true) (fun _ => true)
    (fun _ => .connected 0) 2 (-1) (by decide)

/-- C3: `add_documents` called with `ids = None` generates exactly one
identifier per input document and, since `uuid.uuid4` never repeats a
value (injectivity of the supply), the generated identifiers are pairwise
distinct. -/
theorem add_documents_unique_ids (uuid : Nat → String)
    (documents : List String) (h : Function.Injective uuid) :
    (addDocumentsIds uuid documents none).length = documents.length ∧
    (addDocumentsIds uuid documents none).Nodup := by
  constructor
  · simp [addDocumentsIds, generatedIds]
  · exact (List.nodup_range _).map h

/-- Witness for `add_documents_unique_ids` on a three-document list with
the injective supply `k ↦ "a" * k`. -/
theorem add_documents_unique_ids_witness :
    (addDocumentsIds (fun k => String.mk (List.replicate k 'a'))
      ["d1", "d2", "d3"] none).length = 3 ∧
    (addDocumentsIds (fun k => String.mk (List.replicate k 'a'))
      ["d1", "d2", "d3"] none).Nodup := by
  have hinj : Function.Injective
      (fun k => String.mk (List.replicate k 'a')) := by
    intro a b hab
    have := congrArg String.length hab
    simpa using this
  exact add_documents_unique_ids _ ["d1", "d2", "d3"] hinj

/-- C4, counterexample: `run_basic_query` in `local_client.py` does not
wrap its single query string — the value it dispatches to
`collection.query` is the raw string, not the one-element list. -/
theorem run_basic_query_dispatches_unwrapped :
    runBasicQueryDispatched "space" = QueryTexts.str "space" ∧
    runBasicQueryDispatched "space" ≠ QueryTexts.list ["space"] := by
  constructor
  · rfl
  · decide

/-- C4, amended: `query_collection` in `app/client.py` wraps a single
query string into a one-element list (and passes a list unchanged) before
dispatching it to `collection.query`, while `run_basic_query` and
`run_filtered_query` in `local_client.py` dispatch their query string
unmodified. -/
theorem query_dispatch_normalization (s : String) (l : List String)
    (qc : List String → Except String (List (List String))) :
    queryCollectionDispatched (QueryTexts.str s) = [s] ∧
    queryCollectionDispatched (QueryTexts.list l) = l ∧
    queryCollection (.ok ()) qc (QueryTexts.str s) = qc [s] ∧
    runBasicQueryDispatched s = QueryTexts.str s ∧
    runFilteredQueryDispatched s = QueryTexts.str s :=
  ⟨rfl, rfl, rfl, rfl, rfl⟩

end Chroma

namespace LocalClient

/-- C5: when no stored document's metadata satisfies the filter, the
filtered query's result list is empty and `run_filtered_query` takes the
"No matching documents found" branch and returns normally — the caller
observes zero documents and no raised error. -/
theorem filtered_query_empty_on_no_match (stored : List StoredDoc)
    (qt fk fv : String) (n : Nat)
    (h : ∀ doc ∈ stored, ¬ doc.metadata.contains (fk, fv)) :
    serviceFilteredQuery stored fk fv n = [] ∧
    runFilteredQuery true stored qt fk fv n = .noMatches := by
  have hfilter :
      stored.filter (fun doc => doc.metadata.contains (fk, fv)) = [] := by
    rw [List.filter_eq_nil_iff]
    exact h
  have hq : serviceFilteredQuery stored fk fv n = [] := by
    rw [serviceFilteredQuery, hfilter]
    simp
  refine ⟨hq, ?_⟩
  rw [runFilteredQuery]
  simp [hq]

/-- Witness for `filtered_query_empty_on_no_match` on a one-document
store whose metadata does not carry the requested key–value pair. -/
theorem filtered_query_empty_on_no_match_witness :
    serviceFilteredQuery [⟨"mars", [("source", "Space")]⟩] "source" "Food" 3
      = [] ∧
    runFilteredQuery true [⟨"mars", [("source", "Space")]⟩] "tacos"
      "source" "Food" 3 = .noMatches :=
  filtered_query_empty_on_no_match [⟨"mars", [("source", "Space")]⟩]
    "tacos" "source" "Food" 3 (by decide)

/-- C6, counterexample: with one existing collection `"other"` and every
other step succeeding, asking for the missing `--collection
sample_collection` does not exit — `main` completes after querying the
fallback collection. -/
theorem cli_missing_collection_completes :
    ("sample_collection" ∈ (["other"] : List String) → False) ∧
    cliMain ⟨true, ["other"], fun _ => true⟩ "sample_collection" =
      .completed "other" := by
  constructor
  · decide
  · rfl

/-- C6, amended: the CLI exits with a nonzero status whenever the initial
connection fails; when the collection targeted by `--collection` is
missing it exits nonzero only in the case that no collections exist at
all (otherwise it proceeds against a fallback collection). -/
theorem cli_exit_conditions (w : CliWorld) (arg : String) :
    (w.connectOk = false → cliMain w arg = .exitNonzero) ∧
    (w.connectOk = true → w.collections = [] →
      cliMain w arg = .exitNonzero) := by
  constructor
  · intro h
    rw [cliMain, h]
    rfl
  · intro h1 h2
    rw [cliMain, h1, h2]
    rfl

/-- Witness for `cli_exit_conditions`: a failed connection exits nonzero,
and a successful connection with no collections exits nonzero. -/
theorem cli_exit_conditions_witness :
    cliMain ⟨false, ["c"], fun _ => true⟩ "q" = .exitNonzero ∧
    cliMain ⟨true, [], fun _ => true⟩ "q" = .exitNonzero :=
  ⟨(cli_exit_conditions ⟨false, ["c"], fun _ => true⟩ "q").1 rfl,
   (cli_exit_conditions ⟨true, [], fun _ => true⟩ "q").2 rfl rfl⟩

/-- C7: a remote failure inside `get_collection_info` is not re-raised —
the function returns the empty dict — while remote failures in
`add_documents` and `query_collection` are re-raised to the caller. -/
theorem remote_failure_handling (e : String) (name : String)
    (uuid : Nat → String) (documents : List String)
    (ids : Option (List String)) (qts : Chroma.QueryTexts) :
    getCollectionInfo (.error e) name = .empty ∧
    Chroma.addDocuments (.ok ()) (fun _ => .error e) uuid documents ids =
      .error e ∧
    Chroma.queryCollection (.ok ()) (fun _ => .error e) qts = .error e :=
  ⟨rfl, rfl, rfl⟩

/-- C9: when the connection succeeds and info lookups on existing
collections succeed, `main` with a `--collection` name that is not listed
but with at least one existing collection silently queries the first
listed collection, and it exits nonzero exactly when no collections exist
at all. -/
theorem cli_fallback_to_first (w : CliWorld) (arg : String)
    (hconn : w.connectOk = true)
    (hinfo : ∀ n ∈ w.collections, w.infoOk n = true) :
    (arg ∉ w.collections → w.collections ≠ [] →
      cliMain w arg = .completed (w.collections.headD "")) ∧
    (cliMain w arg = .exitNonzero ↔ w.collections = []) := by
  obtain ⟨ok, cols, inf⟩ := w
  have hok : ok = true := hconn
  subst hok
  cases cols with
  | nil =>
    constructor
    · intro _ hne
      exact absurd rfl hne
    · simp [cliMain]
  | cons c cs =>
    have hc : inf c = true := hinfo c (List.mem_cons_self c cs)
    constructor
    · intro hnotmem _
      have hnot' : ¬(arg = c ∨ arg ∈ cs) := by
        simpa using hnotmem
      simp [cliMain, hnot', hc]
    · constructor
      · intro hexit
        exfalso
        by_cases hb : arg = c ∨ arg ∈ cs
        · have harg : inf arg = true := hinfo arg (by simpa using hb)
          simp [cliMain, hb, harg] at hexit
        · simp [cliMain, hb, hc] at hexit
      · intro h
        exact absurd h (List.cons_ne_nil c cs)

/-- Witness for `cli_fallback_to_first` with collections
`["alpha", "beta"]` and the missing target `"gamma"`: the script queries
`"alpha"` and does not exit. -/
theorem cli_fallback_to_first_witness :
    cliMain ⟨true, ["alpha", "beta"], fun _ => true⟩ "gamma" =
      .completed "alpha" ∧
    cliMain ⟨true, ["alpha", "beta"], fun _ => true⟩ "gamma" ≠
      .exitNonzero := by
  have h := cli_fallback_to_first ⟨true, ["alpha", "beta"], fun _ => true⟩
    "gamma" rfl (fun n _ => rfl)
  refine ⟨h.1 (by decide) (by decide), fun hexit => ?_⟩
  have := h.2.mp hexit
  simp at this

end LocalClient

namespace Service

/-- C8: both `add_documents` and `query_collection` start by performing
get-or-create on the named collection, so invoking either with a name the
store does not yet hold creates that collection: adding makes the store
hold exactly the new documents under that name, and querying a
nonexistent collection succeeds against a fresh empty collection (every
per-query result list is empty) instead of failing with a
missing-collection error. -/
theorem ops_create_missing_collection (st : Store) (name : String)
    (docs : List String) (q : Chroma.QueryTexts) (n : Nat)
    (h : st.lookup name = none) :
    (addDocumentsState st name docs).lookup name = some docs ∧
    (queryCollectionState st name q n).1.lookup name = some [] ∧
    ∀ r ∈ (queryCollectionState st name q n).2, r = [] := by
  have hcreate : getOrCreateService st name = ((name, []) :: st, []) := by
    rw [getOrCreateService, h]
  refine ⟨?_, ?_, ?_⟩
  · rw [addDocumentsState, hcreate]
    simp only [storeAdd, List.map_cons, if_pos rfl]
    simp [List.lookup]
  · rw [queryCollectionState, hcreate]
    simp [List.lookup]
  · rw [queryCollectionState, hcreate]
    intro r hr
    simp only [List.mem_map] at hr
    obtain ⟨_, _, hr⟩ := hr
    simpa [serviceQuery] using hr.symm

/-- Witness for `ops_create_missing_collection`: a store holding only
collection `"a"` and an operation aimed at the absent `"b"`. -/
theorem ops_create_missing_collection_witness :
    (addDocumentsState [("a", ["x"])] "b" ["d1", "d2"]).lookup "b" =
      some ["d1", "d2"] ∧
    (queryCollectionState [("a", ["x"])] "b" (.str "q") 3).1.lookup "b" =
      some [] ∧
    ∀ r ∈ (queryCollectionState [("a", ["x"])] "b" (.str "q") 3).2,
      r = [] :=
  ops_create_missing_collection [("a", ["x"])] "b" ["d1", "d2"]
    (.str "q") 3 (by decide)

end Service


